import Mathlib

/-
Shallow embedding of `src/ueditor/widgets.py` (django-ueditor), covering
the locale/configuration resolver (`get_language_config`,
`convert_language_code`, `language_file_exists`) and the widget's
`UEditor.render` method, together with theorems checking the design
specification against it.

Modelling conventions:
* Python `str` values are Lean `String`s; where the code indexes the
  result of `str.split('-')` we split the underlying character list so
  that CPython's splitting semantics (empty string splits to `[""]`,
  separators at the ends produce empty parts) are explicit.
* Python dicts holding the editor configuration are ordered association
  lists (`Dict` below); assignment updates the first occurrence of a key
  in place or appends a fresh key at the end, exactly as a Python dict.
* Read-only collaborators (static-file finder, active Django language,
  `settings.*`, the optional `enchant` library) are passed as explicit
  arguments; the `ImportError` raised when `enchant` is missing becomes
  the `Except.error` branch.
-/

namespace Ueditor

/-- Python `str.upper()` as used on the country part of a locale code
(`lang_and_country[1].upper()` in widgets.py); locale subtags are ASCII,
where `Char.toUpper` agrees with CPython. -/
def pyUpper (s : String) : String :=
  String.mk (s.toList.map Char.toUpper)

/-- Python `str.split('-')` on the character list of the string: the
empty string splits to `[[]]`, and a separator at either end produces an
empty part, as in CPython. -/
def splitOnHyphen : List Char → List (List Char)
  | [] => [[]]
  | c :: rest =>
    if c = '-' then [] :: splitOnHyphen rest
    else
      match splitOnHyphen rest with
      | [] => [[c]]
      | p :: ps => (c :: p) :: ps

/-- `convert_language_code` from widgets.py: split the Django code on
`'-'`; when a country part is present return
`'_'.join((lang, country.upper()))`, otherwise (the `IndexError` branch)
return the bare language part. A split result can never be empty; the
`[]` case is dead code returning the empty string. -/
def convert_language_code (django_lang : String) : String :=
  match (splitOnHyphen django_lang.toList).map String.mk with
  | lang :: country :: _ => lang ++ "_" ++ pyUpper country
  | [lang] => lang
  | [] => ""

/-- Ordered association list standing for a Python `dict` with string
keys and values (insertion order is observable, as in Python 3.7+). -/
abbrev Dict := List (String × String)

/-- Python `config.get(k)` / `config[k]`: value at the first occurrence
of the key, `none` when the key is absent. -/
def dictGet : Dict → String → Option String
  | [], _ => none
  | (k', v) :: rest, k => if k' = k then some v else dictGet rest k

/-- Python `config[k] = v`: replace the value at an existing key in
place, otherwise append the new key at the end. -/
def dictSet : Dict → String → String → Dict
  | [], k, v => [(k, v)]
  | (k', v') :: rest, k, v =>
    if k' = k then (k, v) :: rest else (k', v') :: dictSet rest k v

/-- Python `dict.update(other)`: assign every key of `other`, in order,
into the receiver. -/
def dictUpdate (d other : Dict) : Dict :=
  other.foldl (fun acc p => dictSet acc p.1 p.2) d

/-- `language_file_exists` from widgets.py: ask the static-file finder
(passed in as the oracle `finders_find`) whether
`UE/lang/<code>/<code>.js` resolves to a file. -/
def language_file_exists (finders_find : String → Bool)
    (language_code : String) : Bool :=
  finders_find ("UE/lang/" ++ language_code ++ "/" ++ language_code ++ ".js")

/-- Python `get_language() or settings.LANGUAGE_CODE`: a missing (`None`)
or empty active language falls back to the project `LANGUAGE_CODE`. -/
def activeLocale (get_language : Option String) (LANGUAGE_CODE : String) : String :=
  match get_language with
  | none => LANGUAGE_CODE
  | some s => if s = "" then LANGUAGE_CODE else s

/-- The `for lang, name in settings.LANGUAGES` loop inside
`get_language_config`: convert each declared code, retry with the
two-letter prefix when the converted code has no enchant dictionary, and
skip the language (a log line only) when the retry also misses; the
first surviving code is stored under `spellchecker_language`, and every
surviving pair appends `"name=code"` to `lang_names`. -/
def spellcheckLoop (enchant_languages : List String) :
    List (String × String) → Dict → List String → Dict × List String
  | [], config, lang_names => (config, lang_names)
  | (lang0, name) :: rest, config, lang_names =>
    let lang1 := convert_language_code lang0
    let lang := if enchant_languages.contains lang1 then lang1 else lang1.take 2
    if enchant_languages.contains lang then
      let config' :=
        if (dictGet config "spellchecker_language").isNone then
          dictSet config "spellchecker_language" lang
        else config
      spellcheckLoop enchant_languages rest config' (lang_names ++ [name ++ "=" ++ lang])
    else
      spellcheckLoop enchant_languages rest config lang_names

/-- `get_language_config` from widgets.py. Arguments are the read-only
collaborators of the Python function: the active Django language and the
`LANGUAGE_CODE` setting, the static-file finder, `get_language_bidi()`,
`USE_SPELLCHECKER`, the optional enchant library (`none` models the
`ImportError` on `from enchant import list_languages`, `some` carries
`list_languages()`), and `settings.LANGUAGES`. The raised `ImportError`
is the `Except.error` result; `settings.DEBUG` only controls a log line
and is omitted. -/
def get_language_config (get_language : Option String) (LANGUAGE_CODE : String)
    (finders_find : String → Bool) (get_language_bidi : Bool)
    (USE_SPELLCHECKER : Bool) (enchant : Option (List String))
    (LANGUAGES : List (String × String)) : Except String Dict :=
  let lc0 := convert_language_code (activeLocale get_language LANGUAGE_CODE)
  let language_code :=
    if language_file_exists finders_find lc0 then lc0
    else if language_file_exists finders_find (lc0.take 2) then lc0.take 2
    else "en"
  let config : Dict := [("language", language_code)]
  let config :=
    if get_language_bidi then dictSet config "directionality" "rtl"
    else dictSet config "directionality" "ltr"
  if USE_SPELLCHECKER then
    match enchant with
    | none => Except.error "To use spellchecker you need to install pyenchant first!"
    | some enchant_languages =>
      let r := spellcheckLoop enchant_languages LANGUAGES config []
      Except.ok (dictSet r.1 "spellchecker_languages" (String.intercalate "," r.2))
  else
    Except.ok config

/-- Modelled from the spec, section 4.1: `resolve_language` as the spec
states it — convert the active locale, query the translation oracle,
retry with the leading two-character subtag, fall back to `"en"`. The
source inlines this chain in `get_language_config`; this definition
follows the spec's words so the two can be compared. -/
def resolve_language (active_locale : String) (oracle : String → Bool) : String :=
  let code := convert_language_code active_locale
  if oracle code then code
  else if oracle (code.take 2) then code.take 2
  else "en"

/-- Modelled from the spec, section 4.1 (`build_spellcheck_config`):
per-language dictionary resolution — convert the code; when unavailable
retry with the two-letter subtag; `none` when both miss. -/
def lookup_dictionary (oracle : List String) (code : String) : Option String :=
  let c := convert_language_code code
  if oracle.contains c then some c
  else if oracle.contains (c.take 2) then some (c.take 2)
  else none

/-- Modelled from the spec, section 4.1: the surviving
`(display-name, resolved-code)` pairs of `build_spellcheck_config`, in
input order. -/
def surviving_languages (oracle : List String)
    (LANGUAGES : List (String × String)) : List (String × String) :=
  LANGUAGES.filterMap fun p => (lookup_dictionary oracle p.1).map fun c => (p.2, c)

/-- `smart_text` as applied in `UEditor.render`: on a `str` value it is
the identity. -/
def smart_text (s : String) : String := s

/-- The `ue_html` template of `UEditor.render` after `.format(name=name,
value=value)`: the doubled braces of the Python literal are single
braces here, written as escapes. -/
def ue_html (name value : String) : String :=
  "<script id=\"" ++ name ++ "\" name=\"" ++ name ++ "\" type=\"text/plain\">\n" ++
  "                                            </script>\n" ++
  "                                            <textarea id=\"" ++ name ++
    "_val\" style=\"display:none;\" >" ++ value ++ "</textarea>\n" ++
  "                                            <script>\n" ++
  "                                            (function ($) \x7b\n" ++
  "                                                var ue = UE.getEditor(\"" ++ name ++
    "\",\x7bzIndex: 100\x7d);\n" ++
  "                                                ue.ready(function () \x7b\n" ++
  "                                                    var content_val =$(\x27#" ++ name ++
    "_val\x27).val();\n" ++
  "                                                    ue.setContent(content_val);\n" ++
  "                                                \x7d);\n" ++
  "                                            \x7d)(grp.jQuery);\n" ++
  "                                            </script>"

/-- State of a `UEditor` widget after `__init__`: the ueditor profile
(replacing configuration) and the amending `ue_attrs`. -/
structure UEditorWidget where
  profile : Dict
  ue_attrs : Dict

/-- `UEditor.render` from widgets.py: a `None` value becomes the empty
string and is passed through `smart_text`; the method computes
`qtue_settings = self.profile.copy(); qtue_settings.update(self.ue_attrs)`
but never uses it, and returns the formatted `ue_html` template, which
mentions only `name` and `value`. The `attrs` and `renderer` parameters
of the Python signature are likewise unused. -/
def UEditor.render (w : UEditorWidget) (name : String) (value : Option String)
    (_attrs : Option Dict) (_renderer : Option String) : String :=
  let value := smart_text (match value with | none => "" | some v => v)
  let _qtue_settings := dictUpdate w.profile w.ue_attrs
  ue_html name value

/-! Helper lemmas about the dict model and the spellcheck loop. -/

lemma splitOnHyphen_ne_nil (cs : List Char) : splitOnHyphen cs ≠ [] := by
  cases cs with
  | nil => simp [splitOnHyphen]
  | cons c rest =>
    simp only [splitOnHyphen]
    split
    · simp
    · split <;> simp

lemma dictGet_dictSet_self (d : Dict) (k v : String) :
    dictGet (dictSet d k v) k = some v := by
  induction d with
  | nil => simp [dictSet, dictGet]
  | cons p rest ih =>
    obtain ⟨k', v'⟩ := p
    by_cases h : k' = k <;> simp [dictSet, dictGet, h, ih]

lemma dictGet_dictSet_ne (d : Dict) (k k' v : String) (h : k' ≠ k) :
    dictGet (dictSet d k' v) k = dictGet d k := by
  induction d with
  | nil => simp [dictSet, dictGet, h]
  | cons p rest ih =>
    obtain ⟨k₀, v₀⟩ := p
    by_cases h₀ : k₀ = k' <;> simp [dictSet, dictGet, h, h₀, ih]

lemma lookup_dictionary_hit (e : List String) (lang0 : String)
    (h1 : e.contains (convert_language_code lang0) = true) :
    lookup_dictionary e lang0 = some (convert_language_code lang0) := by
  simp only [lookup_dictionary]
  rw [if_pos h1]

lemma lookup_dictionary_take2 (e : List String) (lang0 : String)
    (h1 : ¬ e.contains (convert_language_code lang0) = true)
    (h2 : e.contains ((convert_language_code lang0).take 2) = true) :
    lookup_dictionary e lang0 = some ((convert_language_code lang0).take 2) := by
  simp only [lookup_dictionary]
  rw [if_neg h1, if_pos h2]

lemma lookup_dictionary_miss (e : List String) (lang0 : String)
    (h1 : ¬ e.contains (convert_language_code lang0) = true)
    (h2 : ¬ e.contains ((convert_language_code lang0).take 2) = true) :
    lookup_dictionary e lang0 = none := by
  simp only [lookup_dictionary]
  rw [if_neg h1, if_neg h2]

lemma surviving_languages_cons (e : List String) (lang0 name : String)
    (rest : List (String × String)) :
    surviving_languages e ((lang0, name) :: rest)
      = match lookup_dictionary e lang0 with
        | none => surviving_languages e rest
        | some c => (name, c) :: surviving_languages e rest := by
  simp only [surviving_languages, List.filterMap_cons]
  cases lookup_dictionary e lang0 <;> simp

lemma spellcheckLoop_fst_other (e : List String) (langs : List (String × String))
    (config : Dict) (names : List String) (k : String)
    (hk : k ≠ "spellchecker_language") :
    dictGet (spellcheckLoop e langs config names).1 k = dictGet config k := by
  induction langs generalizing config names with
  | nil => simp [spellcheckLoop]
  | cons p rest ih =>
    obtain ⟨lang0, name⟩ := p
    simp only [spellcheckLoop]
    by_cases h1 : e.contains (convert_language_code lang0) = true
    · rw [if_pos h1, if_pos h1]
      by_cases hn : (dictGet config "spellchecker_language").isNone = true
      · rw [if_pos hn, ih, dictGet_dictSet_ne _ _ _ _ (Ne.symm hk)]
      · rw [if_neg hn, ih]
    · rw [if_neg h1]
      by_cases h2 : e.contains ((convert_language_code lang0).take 2) = true
      · rw [if_pos h2]
        by_cases hn : (dictGet config "spellchecker_language").isNone = true
        · rw [if_pos hn, ih, dictGet_dictSet_ne _ _ _ _ (Ne.symm hk)]
        · rw [if_neg hn, ih]
      · rw [if_neg h2, ih]

lemma spellcheckLoop_snd (e : List String) (langs : List (String × String))
    (config : Dict) (names : List String) :
    (spellcheckLoop e langs config names).2
      = names ++ (surviving_languages e langs).map (fun p => p.1 ++ "=" ++ p.2) := by
  induction langs generalizing config names with
  | nil => simp [spellcheckLoop, surviving_languages]
  | cons p rest ih =>
    obtain ⟨lang0, name⟩ := p
    simp only [spellcheckLoop]
    rw [surviving_languages_cons]
    by_cases h1 : e.contains (convert_language_code lang0) = true
    · rw [if_pos h1, if_pos h1, lookup_dictionary_hit e lang0 h1, ih]
      simp
    · rw [if_neg h1]
      by_cases h2 : e.contains ((convert_language_code lang0).take 2) = true
      · rw [if_pos h2, lookup_dictionary_take2 e lang0 h1 h2, ih]
        simp
      · rw [if_neg h2, lookup_dictionary_miss e lang0 h1 h2, ih]

lemma spellcheckLoop_fst_sl_some (e : List String) (langs : List (String × String))
    (config : Dict) (names : List String) (v : String)
    (h : dictGet config "spellchecker_language" = some v) :
    dictGet (spellcheckLoop e langs config names).1 "spellchecker_language" = some v := by
  induction langs generalizing config names with
  | nil => simpa [spellcheckLoop] using h
  | cons p rest ih =>
    obtain ⟨lang0, name⟩ := p
    simp only [spellcheckLoop]
    by_cases h1 : e.contains (convert_language_code lang0) = true
    · rw [if_pos h1, if_pos h1, if_neg (by simp [h])]
      exact ih _ _ h
    · rw [if_neg h1]
      by_cases h2 : e.contains ((convert_language_code lang0).take 2) = true
      · rw [if_pos h2, if_neg (by simp [h])]
        exact ih _ _ h
      · rw [if_neg h2]
        exact ih _ _ h

lemma spellcheckLoop_fst_sl_none (e : List String) (langs : List (String × String))
    (config : Dict) (names : List String)
    (h : dictGet config "spellchecker_language" = none) :
    dictGet (spellcheckLoop e langs config names).1 "spellchecker_language"
      = ((surviving_languages e langs).head?).map Prod.snd := by
  induction langs generalizing config names with
  | nil => simpa [spellcheckLoop, surviving_languages] using h
  | cons p rest ih =>
    obtain ⟨lang0, name⟩ := p
    simp only [spellcheckLoop]
    rw [surviving_languages_cons]
    by_cases h1 : e.contains (convert_language_code lang0) = true
    · rw [if_pos h1, if_pos h1, lookup_dictionary_hit e lang0 h1,
        if_pos (by simp [h]),
        spellcheckLoop_fst_sl_some _ _ _ _ _ (dictGet_dictSet_self ..)]
      simp
    · rw [if_neg h1]
      by_cases h2 : e.contains ((convert_language_code lang0).take 2) = true
      · rw [if_pos h2, lookup_dictionary_take2 e lang0 h1 h2,
          if_pos (by simp [h]),
          spellcheckLoop_fst_sl_some _ _ _ _ _ (dictGet_dictSet_self ..)]
        simp
      · rw [if_neg h2, lookup_dictionary_miss e lang0 h1 h2, ih _ _ h]

lemma base_config_get (L : String) (bidi : Bool) :
    dictGet (if bidi then dictSet [("language", L)] "directionality" "rtl"
        else dictSet [("language", L)] "directionality" "ltr") "language" = some L
      ∧ dictGet (if bidi then dictSet [("language", L)] "directionality" "rtl"
        else dictSet [("language", L)] "directionality" "ltr") "directionality"
        = some (if bidi then "rtl" else "ltr")
      ∧ dictGet (if bidi then dictSet [("language", L)] "directionality" "rtl"
        else dictSet [("language", L)] "directionality" "ltr") "spellchecker_language"
        = none := by
  cases bidi <;> simp [dictSet, dictGet]

lemma get_language_config_ok_core (gl : Option String) (lc : String)
    (ff : String → Bool) (bidi sp : Bool) (ench : Option (List String))
    (langs : List (String × String)) (config : Dict)
    (hok : get_language_config gl lc ff bidi sp ench langs = Except.ok config) :
    dictGet config "language"
        = some (resolve_language (activeLocale gl lc) (language_file_exists ff))
      ∧ dictGet config "directionality" = some (if bidi then "rtl" else "ltr") := by
  have hres : resolve_language (activeLocale gl lc) (language_file_exists ff)
      = (if language_file_exists ff (convert_language_code (activeLocale gl lc))
          then convert_language_code (activeLocale gl lc)
        else if language_file_exists ff
            ((convert_language_code (activeLocale gl lc)).take 2)
          then (convert_language_code (activeLocale gl lc)).take 2
        else "en") := rfl
  rw [hres]
  simp only [get_language_config] at hok
  cases sp with
  | false =>
    rw [if_neg (by simp)] at hok
    obtain rfl := (Except.ok.injEq ..).mp hok
    exact ⟨(base_config_get _ bidi).1, (base_config_get _ bidi).2.1⟩
  | true =>
    rw [if_pos rfl] at hok
    cases ench with
    | none => exact absurd hok (by simp)
    | some e =>
      obtain rfl := (Except.ok.injEq ..).mp hok
      constructor
      · rw [dictGet_dictSet_ne _ _ _ _ (by decide),
          spellcheckLoop_fst_other _ _ _ _ _ (by decide)]
        exact (base_config_get _ bidi).1
      · rw [dictGet_dictSet_ne _ _ _ _ (by decide),
          spellcheckLoop_fst_other _ _ _ _ _ (by decide)]
        exact (base_config_get _ bidi).2.1

lemma get_language_config_ok_spell (gl : Option String) (lc : String)
    (ff : String → Bool) (bidi : Bool) (e : List String)
    (langs : List (String × String)) (config : Dict)
    (hok : get_language_config gl lc ff bidi true (some e) langs = Except.ok config) :
    dictGet config "spellchecker_languages"
        = some (String.intercalate ","
            ((surviving_languages e langs).map fun p => p.1 ++ "=" ++ p.2))
      ∧ dictGet config "spellchecker_language"
        = ((surviving_languages e langs).head?).map Prod.snd := by
  simp only [get_language_config] at hok
  rw [if_pos trivial] at hok
  obtain rfl := (Except.ok.injEq ..).mp hok
  constructor
  · rw [dictGet_dictSet_self, spellcheckLoop_snd]
    simp
  · rw [dictGet_dictSet_ne _ _ _ _ (by decide),
      spellcheckLoop_fst_sl_none _ _ _ _ (base_config_get _ bidi).2.2]

lemma resolve_language_exists_or_en (a : String) (o : String → Bool) :
    o (resolve_language a o) = true ∨ resolve_language a o = "en" := by
  simp only [resolve_language]
  by_cases h1 : o (convert_language_code a) = true
  · rw [if_pos h1]
    exact Or.inl h1
  · rw [if_neg h1]
    by_cases h2 : o ((convert_language_code a).take 2) = true
    · rw [if_pos h2]
      exact Or.inl h2
    · rw [if_neg h2]
      exact Or.inr rfl

/-! Claim theorems. -/

/-- C1: for every active locale and translation oracle, the `language`
key of a configuration produced by `get_language_config` is either a
code for which the translation oracle (`language_file_exists` over the
static-file finder) reports an existing translation, or the literal
fallback `"en"`; the resolver never emits a code known to be
unavailable. -/
theorem language_key_exists_or_en (gl : Option String) (lc : String)
    (ff : String → Bool) (bidi sp : Bool) (ench : Option (List String))
    (langs : List (String × String)) (config : Dict) (l : String)
    (hok : get_language_config gl lc ff bidi sp ench langs = Except.ok config)
    (hl : dictGet config "language" = some l) :
    language_file_exists ff l = true ∨ l = "en" := by
  have hcore := (get_language_config_ok_core gl lc ff bidi sp ench langs config hok).1
  rw [hl] at hcore
  obtain rfl := Option.some.inj hcore
  exact resolve_language_exists_or_en _ _

/-- Witness for C1 at a concrete input: no translation file exists, so
the produced language is the fallback `"en"`. -/
theorem language_key_exists_or_en_witness :
    language_file_exists (fun _ => false) "en" = true ∨ "en" = "en" :=
  language_key_exists_or_en (some "de-at") "en" (fun _ => false) false false none []
    [("language", "en"), ("directionality", "ltr")] "en" rfl (by decide)

/-- C2: language resolution follows exactly the spec's three-step
degrade chain (`resolve_language`): convert via `convert_language_code`
and query the oracle, retry with the leading two-character subtag, fall
back to `"en"` — the `language` key of every configuration produced by
`get_language_config` equals the chain's result; with oracle
`{"de_DE"}` resolving `"de-at"` yields `"en"`, and with oracle `{"fr"}`
resolving `"fr-fr"` yields `"fr"`. -/
theorem resolution_three_step_chain :
    (∀ (gl : Option String) (lc : String) (ff : String → Bool) (bidi sp : Bool)
        (ench : Option (List String)) (langs : List (String × String)) (config : Dict),
      get_language_config gl lc ff bidi sp ench langs = Except.ok config →
        dictGet config "language"
          = some (resolve_language (activeLocale gl lc) (language_file_exists ff)))
    ∧ resolve_language "de-at" (fun s => s == "de_DE") = "en"
    ∧ resolve_language "fr-fr" (fun s => s == "fr") = "fr" :=
  ⟨fun gl lc ff bidi sp ench langs config hok =>
    (get_language_config_ok_core gl lc ff bidi sp ench langs config hok).1,
   by decide, by decide⟩

/-- Witness for C2 at a concrete input: with no translation files the
produced `language` key is the chain's result. -/
theorem resolution_three_step_chain_witness :
    dictGet [("language", "en"), ("directionality", "ltr")] "language"
      = some (resolve_language (activeLocale (some "de-at") "en")
          (language_file_exists fun _ => false)) :=
  resolution_three_step_chain.1 (some "de-at") "en" (fun _ => false) false false none []
    [("language", "en"), ("directionality", "ltr")] rfl

/-- C3: `convert_language_code` splits its input on the hyphen; with a
region subtag it returns the language subtag, an underscore and the
uppercased region subtag, without one it returns the language subtag
unchanged (it is a total function, so there is no failure mode, and a
split result is never empty); `convert_language_code "pt-br" = "pt_BR"`
and `convert_language_code "en" = "en"`. -/
theorem convert_language_code_spec :
    (∀ s : String,
      match (splitOnHyphen s.toList).map String.mk with
      | [] => False
      | [lang] => convert_language_code s = lang
      | lang :: region :: _ => convert_language_code s = lang ++ "_" ++ pyUpper region)
    ∧ convert_language_code "pt-br" = "pt_BR"
    ∧ convert_language_code "en" = "en" := by
  refine ⟨?_, by decide, by decide⟩
  intro s
  rcases hsplit : (splitOnHyphen s.toList).map String.mk with _ | ⟨lang, _ | ⟨region, rest⟩⟩
  · exact absurd (List.map_eq_nil_iff.mp hsplit) (splitOnHyphen_ne_nil s.toList)
  · simp only [convert_language_code, hsplit]
  · simp only [convert_language_code, hsplit]

/-- C4: when spellcheck is requested and the enchant library is missing,
`get_language_config` fails with the configuration error naming
pyenchant; this is the only error condition (in particular per-language
dictionary misses never produce an error: any error forces the enchant
capability itself to be absent, whatever `LANGUAGES` contains). -/
theorem spellchecker_import_error :
    (∀ (gl : Option String) (lc : String) (ff : String → Bool) (bidi : Bool)
        (langs : List (String × String)),
      get_language_config gl lc ff bidi true none langs
        = Except.error "To use spellchecker you need to install pyenchant first!")
    ∧ (∀ (gl : Option String) (lc : String) (ff : String → Bool) (bidi sp : Bool)
        (ench : Option (List String)) (langs : List (String × String)) (msg : String),
      get_language_config gl lc ff bidi sp ench langs = Except.error msg →
        sp = true ∧ ench = none
          ∧ msg = "To use spellchecker you need to install pyenchant first!") := by
  constructor
  · intro gl lc ff bidi langs
    rfl
  · intro gl lc ff bidi sp ench langs msg h
    cases sp with
    | false => exact absurd h (by simp [get_language_config])
    | true =>
      cases ench with
      | none =>
        simp only [get_language_config, if_pos trivial] at h
        exact ⟨rfl, rfl, ((Except.error.injEq ..).mp h).symm⟩
      | some e => exact absurd h (by simp [get_language_config])

/-- Witness for C4 at a concrete input: requesting spellcheck with the
enchant library absent produces exactly the pyenchant error. -/
theorem spellchecker_import_error_witness :
    true = true ∧ (none : Option (List String)) = none
      ∧ "To use spellchecker you need to install pyenchant first!"
        = "To use spellchecker you need to install pyenchant first!" :=
  spellchecker_import_error.2 (some "en") "en" (fun _ => false) false true none []
    "To use spellchecker you need to install pyenchant first!" rfl

/-- C5: with spellcheck enabled, each declared `(locale, name)` pair is
resolved by `lookup_dictionary` (convert, retry with the two-letter
subtag, skip when both miss); the first surviving code is the
`spellchecker_language`, and the survivors are serialized in input
order as `"Name=code"` entries joined by commas into
`spellchecker_languages`. -/
theorem spellcheck_config_survivors (gl : Option String) (lc : String)
    (ff : String → Bool) (bidi : Bool) (e : List String)
    (langs : List (String × String)) (config : Dict)
    (hok : get_language_config gl lc ff bidi true (some e) langs = Except.ok config) :
    dictGet config "spellchecker_languages"
        = some (String.intercalate ","
            ((surviving_languages e langs).map fun p => p.1 ++ "=" ++ p.2))
      ∧ dictGet config "spellchecker_language"
        = ((surviving_languages e langs).head?).map Prod.snd :=
  get_language_config_ok_spell gl lc ff bidi e langs config hok

/-- Witness for C5 at a concrete input: dictionaries for `en` and `de`
make `en` (direct hit) and `de-at` (two-letter retry) survive while
`pt-br` is skipped, in input order. -/
theorem spellcheck_config_survivors_witness :
    dictGet [("language", "en"), ("directionality", "rtl"),
        ("spellchecker_language", "en"),
        ("spellchecker_languages", "English=en,German=de")] "spellchecker_languages"
        = some (String.intercalate ","
            ((surviving_languages ["en", "de"]
              [("en", "English"), ("pt-br", "Portuguese"), ("de-at", "German")]).map
                fun p => p.1 ++ "=" ++ p.2))
      ∧ dictGet [("language", "en"), ("directionality", "rtl"),
        ("spellchecker_language", "en"),
        ("spellchecker_languages", "English=en,German=de")] "spellchecker_language"
        = ((surviving_languages ["en", "de"]
            [("en", "English"), ("pt-br", "Portuguese"), ("de-at", "German")]).head?).map
              Prod.snd :=
  spellcheck_config_survivors (some "en") "en" (fun _ => true) true ["en", "de"]
    [("en", "English"), ("pt-br", "Portuguese"), ("de-at", "German")] _ rfl

/-- C6: when every declared language misses the dictionary oracle even
after the two-step fallback, the produced configuration has
`spellchecker_languages` equal to the empty string and no
`spellchecker_language` key at all. -/
theorem spellcheck_all_unavailable (gl : Option String) (lc : String)
    (ff : String → Bool) (bidi : Bool) (e : List String)
    (langs : List (String × String)) (config : Dict)
    (h : ∀ p ∈ langs, lookup_dictionary e p.1 = none)
    (hok : get_language_config gl lc ff bidi true (some e) langs = Except.ok config) :
    dictGet config "spellchecker_languages" = some ""
      ∧ dictGet config "spellchecker_language" = none := by
  have hs : surviving_languages e langs = [] := by
    simp only [surviving_languages, List.filterMap_eq_nil_iff]
    intro p hp
    rw [h p hp]
    rfl
  have hc := get_language_config_ok_spell gl lc ff bidi e langs config hok
  rw [hs] at hc
  simpa using hc

/-- Witness for C6 at a concrete input: with an empty dictionary set the
single declared language is skipped, leaving an empty serialization and
no default selection. -/
theorem spellcheck_all_unavailable_witness :
    dictGet [("language", "en"), ("directionality", "ltr"),
        ("spellchecker_languages", "")] "spellchecker_languages" = some ""
      ∧ dictGet [("language", "en"), ("directionality", "ltr"),
        ("spellchecker_languages", "")] "spellchecker_language" = none :=
  spellcheck_all_unavailable (some "en") "en" (fun _ => true) false [] [("xx", "X")] _
    (by decide) rfl

/-- C7: every configuration produced by `get_language_config` carries a
`directionality` key, `"rtl"` exactly when the bidi flag is true and
`"ltr"` when it is false. -/
theorem directionality_flag (gl : Option String) (lc : String)
    (ff : String → Bool) (bidi sp : Bool) (ench : Option (List String))
    (langs : List (String × String)) (config : Dict)
    (hok : get_language_config gl lc ff bidi sp ench langs = Except.ok config) :
    dictGet config "directionality" = some (if bidi then "rtl" else "ltr") :=
  (get_language_config_ok_core gl lc ff bidi sp ench langs config hok).2

/-- Witness for C7 at a concrete input: a bidi locale yields `"rtl"`. -/
theorem directionality_flag_witness :
    dictGet [("language", "en"), ("directionality", "rtl")] "directionality"
      = some (if true then "rtl" else "ltr") :=
  directionality_flag (some "ar") "en" (fun _ => false) true false none [] _ rfl

/-- C8: configuration construction is deterministic — two calls of
`get_language_config` with identical oracles, locale, direction flag,
language list and spellcheck flag produce identical output mappings. -/
theorem build_config_deterministic
    (gl gl' : Option String) (lc lc' : String) (ff ff' : String → Bool)
    (bidi bidi' sp sp' : Bool) (ench ench' : Option (List String))
    (langs langs' : List (String × String))
    (hgl : gl = gl') (hlc : lc = lc') (hff : ff = ff') (hbidi : bidi = bidi')
    (hsp : sp = sp') (hench : ench = ench') (hlangs : langs = langs') :
    get_language_config gl lc ff bidi sp ench langs
      = get_language_config gl' lc' ff' bidi' sp' ench' langs' := by
  subst hgl hlc hff hbidi hsp hench hlangs
  rfl

/-- Witness for C8 at a concrete input: two identical calls agree. -/
theorem build_config_deterministic_witness :
    get_language_config (some "pt-br") "en" (fun _ => false) false false none []
      = get_language_config (some "pt-br") "en" (fun _ => false) false false none [] :=
  build_config_deterministic (some "pt-br") (some "pt-br") "en" "en"
    (fun _ => false) (fun _ => false) false false false false none none [] []
    rfl rfl rfl rfl rfl rfl rfl

/-- C9: `UEditor.render` returns the same HTML string for any two widget
states (any `profile` and `ue_attrs`) and any `attrs`/`renderer`
arguments: the output depends only on `name` and `value`, and the
merged configuration computed inside `render` never reaches the
output. -/
theorem render_ignores_configuration (w w' : UEditorWidget) (name : String)
    (value : Option String) (a a' : Option Dict) (r r' : Option String) :
    UEditor.render w name value a r = UEditor.render w' name value a' r' := rfl

/-- C10: on an input with two or more hyphen-separated parts,
`convert_language_code` returns the first part, an underscore and the
uppercased second part, discarding every later part;
`convert_language_code "zh-hans-cn" = "zh_HANS"`. -/
theorem convert_language_code_extra_parts :
    (∀ (s : String) (lang region : List Char) (rest : List (List Char)),
      splitOnHyphen s.toList = lang :: region :: rest →
        convert_language_code s = String.mk lang ++ "_" ++ pyUpper (String.mk region))
    ∧ convert_language_code "zh-hans-cn" = "zh_HANS" := by
  refine ⟨?_, by decide⟩
  intro s lang region rest h
  simp only [convert_language_code, h, List.map_cons]

/-- Witness for C10 at a concrete input: `"zh-hans-cn"` splits into
three parts and the third is discarded. -/
theorem convert_language_code_extra_parts_witness :
    convert_language_code "zh-hans-cn"
      = String.mk ['z', 'h'] ++ "_" ++ pyUpper (String.mk ['h', 'a', 'n', 's']) :=
  convert_language_code_extra_parts.1 "zh-hans-cn" ['z', 'h'] ['h', 'a', 'n', 's']
    [['c', 'n']] rfl

end Ueditor
